import Mathlib

/-!
# Verification of the Iredell property-document retrieval pipeline

Shallow embedding of `src/main.py` (FastAPI + Playwright scraper).  The
browser is modelled as an oracle of outcomes (what each navigation /
download / render call would produce); every piece of pure logic in the
Python file — the regular-expression matching, the latest-tax-bill row
scan, URL resolution, bundle assembly, the endpoint's input floor — is
translated directly.

Conventions:
* Python `bytes` is `List Nat`.
* A Python call that may raise and is caught by the caller is modelled as
  an `Option`/`Except` outcome supplied by the oracle.
* Regular expressions are specialised to the concrete patterns in the
  source and implemented character-by-character with Python `re`
  semantics (leftmost match; the character classes involved are disjoint,
  so greedy matching needs no backtracking).  `\w`/`\d`/`\s` are taken in
  their ASCII reading, which covers all portal text the claims mention.
-/

abbrev Bytes := List Nat

/-- The whitespace class of Python `str.strip` / `\s` (ASCII part). -/
def pyIsSpace (c : Char) : Bool :=
  c == ' ' || c == '\t' || c == '\n' || c == '\r' || c == '\x0b' || c == '\x0c'

/-- Python `str.strip()`: drop leading and trailing whitespace. -/
def pyStrip (s : String) : String :=
  String.mk (((s.toList.dropWhile pyIsSpace).reverse.dropWhile pyIsSpace).reverse)

/-- Python `\w`: letters, digits, underscore (ASCII reading). -/
def wordChar (c : Char) : Bool :=
  c.isAlpha || c.isDigit || c == '_'

/-- `\b` at the start of a match: the previous character (if any) is not a
word character.  `none` means start of string. -/
def boundaryBefore : Option Char → Bool
  | none => true
  | some c => !(wordChar c)

/-- `\b` at the end of a match: the rest of the string is empty or starts
with a non-word character. -/
def boundaryAfter : List Char → Bool
  | [] => true
  | c :: _ => !(wordChar c)

/-- A character of the class `[\d\.]` from the PIN pattern. -/
def pinChar (c : Char) : Bool :=
  c.isDigit || c == '.'

/-!
## `_extract_property_links_from_details` (src/main.py lines 93–124)

PIN pattern: `re.search(r"\bPIN\b\s*([\d\.]+)", body_text, flags=re.I)`,
then `.group(1).strip()`.  The capture `[\d\.]+` is a maximal nonempty run
of digits and dots; since it contains no whitespace, the subsequent
`.strip()` is the identity on it.
-/

/-- Attempt to match `\bPIN\b\s*([\d\.]+)` (case-insensitive) anchored at
the head of `cs`, with `prev` the character before `cs`.  Returns the
captured group. -/
def pinAt (prev : Option Char) (cs : List Char) : Option String :=
  match cs with
  | p :: i :: n :: rest =>
    if boundaryBefore prev && p.toLower == 'p' && i.toLower == 'i' && n.toLower == 'n'
        && boundaryAfter rest then
      let digits := (rest.dropWhile pyIsSpace).takeWhile pinChar
      if digits.isEmpty then none else some (String.mk digits)
    else none
  | _ => none

/-- `re.search` for the PIN pattern: leftmost position at which the whole
pattern matches. -/
def pinSearch : Option Char → List Char → Option String
  | _, [] => none
  | prev, c :: rest =>
    match pinAt prev (c :: rest) with
    | some s => some s
    | none => pinSearch (some c) rest

/-- PIN extraction from the details body text (lines 99–101). -/
def extractPin (bodyText : String) : Option String :=
  pinSearch none bodyText.toList

/-- Whether the letters `P`,`I`,`N` (case-insensitive) occur consecutively
anywhere in the text — a text without them certainly has no `PIN` label. -/
def containsPinLabel : List Char → Bool
  | p :: i :: n :: rest =>
    (p.toLower == 'p' && i.toLower == 'i' && n.toLower == 'n')
      || containsPinLabel (i :: n :: rest)
  | _ => false

/-!
Deed-citation pattern (line 117): an anchor whose text matches
`^\s*\d+\s*/\s*\d+\s*$`.  With `^`/`$` anchors this is a full match of
`\s*\d+\s*/\s*\d+\s*` (the `$`-before-trailing-newline subtlety is
absorbed by the final `\s*`, which also accepts a newline).
-/

/-- Full match of `\s*\d+\s*/\s*\d+\s*` against a character list. -/
def deedCitation (cs : List Char) : Bool :=
  let t1 := cs.dropWhile pyIsSpace
  let d1 := t1.takeWhile Char.isDigit
  let t2 := (t1.dropWhile Char.isDigit).dropWhile pyIsSpace
  match t2 with
  | '/' :: t3 =>
    let t4 := t3.dropWhile pyIsSpace
    let d2 := t4.takeWhile Char.isDigit
    let t5 := ((t4.dropWhile Char.isDigit).dropWhile pyIsSpace)
    !d1.isEmpty && !d2.isEmpty && t5.isEmpty
  | _ => false

/-- An anchor element of the rendered page: its inner text and the value of
its `href` attribute (`none`: attribute absent or the lookup raised). -/
structure Anchor where
  text : String
  href : Option String
  deriving DecidableEq

/-- Line 117: the first anchor whose text matches the deed-citation
pattern. -/
def findDeedAnchor (anchors : List Anchor) : Option Anchor :=
  anchors.find? (fun a => deedCitation a.text.toList)

/-- The `PropertyLinks` dataclass (lines 20–27). -/
structure PropertyLinks where
  address : String
  pin : Option String := none
  prc_url : Option String := none
  tax_bills_url : Option String := none
  deed_url : Option String := none
  deed_book_page : Option String := none
  deriving DecidableEq

/-- What the details view offers to the extractor: the full body text, the
outcomes of the two label-based `href_for_link_text` lookups (`none` =
anchor absent / not visible in time / lookup raised), and the page's
visible anchors in document order (for the structural deed match). -/
structure DetailsView where
  bodyText : String
  prcHref : Option String
  taxHref : Option String
  anchors : List Anchor
  deriving DecidableEq

/-- `_extract_property_links_from_details` (lines 93–124): populate a
`PropertyLinks` from the rendered details view.  Total: every unmatched
field stays `none`. -/
def extractLinks (v : DetailsView) (address : String) : PropertyLinks :=
  { address := address
    pin := extractPin v.bodyText
    prc_url := v.prcHref
    tax_bills_url := v.taxHref
    deed_book_page := (findDeedAnchor v.anchors).map (fun a => pyStrip a.text)
    deed_url := (findDeedAnchor v.anchors).bind (fun a => a.href) }

/-!
## `_try_get_latest_tax_bill_url` (src/main.py lines 155–210)

Year pattern: `re.compile(r"\b(20\d{2})\b")`, applied with `.search` to
each row's stripped inner text; `int(m.group(1))` of the leftmost match.
-/

/-- Attempt to match `\b(20\d{2})\b` anchored at the head of `cs`. -/
def yearAt (prev : Option Char) (cs : List Char) : Option Nat :=
  match cs with
  | c1 :: c2 :: c3 :: c4 :: rest =>
    if boundaryBefore prev && c1 == '2' && c2 == '0' && c3.isDigit && c4.isDigit
        && boundaryAfter rest then
      some (2000 + 10 * (c3.toNat - 48) + (c4.toNat - 48))
    else none
  | _ => none

/-- `re.search` for the year pattern: leftmost match. -/
def yearSearch : Option Char → List Char → Option Nat
  | _, [] => none
  | prev, c :: rest =>
    match yearAt prev (c :: rest) with
    | some y => some y
    | none => yearSearch (some c) rest

/-- First 2000s four-digit year in a string (lines 173, 184–187). -/
def findYear (s : String) : Option Nat :=
  yearSearch none s.toList

/-- Python truthiness of a string (`if href:`): nonempty. -/
def pyTruthy (s : String) : Bool :=
  !s.toList.isEmpty

/-- Python `str.startswith`. -/
def strStartsWith (s p : String) : Bool :=
  p.toList.isPrefixOf s.toList

/-- One table row as the scan sees it: the outcome of `inner_text()`
(`none`: the call raised, row skipped) and the outcome of
`row.locator("a").first.get_attribute("href")` (`none`: no anchor, no
attribute, or the call raised). -/
structure TaxRow where
  text : Option String
  href : Option String
  deriving DecidableEq

/-- Loop body, lines 178–199.  Accumulator `(best_year, best_href)`,
initially `(-1, none)`.  A row is skipped when its text is unavailable,
has no year, or the year is below the current best; otherwise, when the
row yields a truthy (nonempty) href, both components are overwritten —
so a later row with an equal year wins. -/
def taxStep (acc : Int × Option String) (row : TaxRow) : Int × Option String :=
  match row.text with
  | none => acc
  | some t =>
    match findYear (pyStrip t) with
    | none => acc
    | some year =>
      if (year : Int) < acc.1 then acc
      else
        match row.href with
        | none => acc
        | some h => if pyTruthy h then ((year : Int), some h) else acc

/-- `re.match(r"^(https?://[^/]+)", url)` (line 205): scheme plus host,
anchored at the start. -/
def httpOrigin (url : String) : Option String :=
  let cs := url.toList
  let parse : Option (List Char × List Char) :=
    if cs.take 8 = "https://".toList then some (cs.take 8, cs.drop 8)
    else if cs.take 7 = "http://".toList then some (cs.take 7, cs.drop 7)
    else none
  match parse with
  | none => none
  | some (scheme, rest) =>
    let host := rest.takeWhile (fun c => !(c == '/'))
    if host.isEmpty then none else some (String.mk (scheme ++ host))

/-- Lines 201–210: turn the winning href into the URL to print.  An href
starting with `"http"` is returned as-is; one starting with `"/"` is
prefixed with the page's http(s) origin when that can be parsed;
everything else (no winner, empty winner, other relative forms, an
unparsable page URL) falls back to the current page URL. -/
def resolveTaxUrl (pageUrl : String) (best_href : Option String) : String :=
  match best_href with
  | none => pageUrl
  | some h =>
    if !pyTruthy h then pageUrl
    else if strStartsWith h "http" then h
    else if strStartsWith h "/" then
      match httpOrigin pageUrl with
      | some origin => origin ++ h
      | none => pageUrl
    else pageUrl

/-- The pure core of `_try_get_latest_tax_bill_url`: scan the rows in
document order, then resolve the winner against the page the browser
ended on. -/
def latestTaxBillUrl (rows : List TaxRow) (pageUrl : String) : String :=
  resolveTaxUrl pageUrl (rows.foldl taxStep ((-1 : Int), none)).2

/-!
## Acquisition and the pipeline (`fetch_docs_as_zip`, lines 213–272)

The browser's effectful behaviour is an oracle `Env`: what
`_download_via_browser_download`, `_print_page_to_pdf` and
`_try_get_latest_tax_bill_url` would produce for each URL.  `none` for a
print / latest-URL outcome models the call raising (every such raise in
the pipeline is caught by an enclosing `try`/`except`); `none` for a
download models the function's own `return None` on timeout or failure.
-/

structure Env where
  download : String → Option Bytes
  printPdf : String → Bool → Option Bytes
  latestUrl : String → Option String

/-- Lines 236–242: deed bytes — triggered download first, print-to-PDF
with `landscape=False` only when the download yielded `None`. -/
def acquireDeed (env : Env) (url : String) : Option Bytes :=
  match env.download url with
  | some b => some b
  | none => env.printPdf url false

/-- Lines 235–244: the deed's contribution to the bundle.  The Python
truthiness test `if deed_bytes:` drops both `None` and empty bytes. -/
def deedEntry (env : Env) (deed_url : Option String) : List (String × Bytes) :=
  match deed_url with
  | none => []
  | some url =>
    match acquireDeed env url with
    | none => []
    | some b => if b.isEmpty then [] else [("deed.pdf", b)]

/-- Lines 247–251: property record card, print-to-PDF with
`landscape=True`; an exception is swallowed. -/
def prcEntry (env : Env) (prc_url : Option String) : List (String × Bytes) :=
  match prc_url with
  | none => []
  | some url =>
    match env.printPdf url true with
    | none => []
    | some b => [("property_record_card.pdf", b)]

/-- Lines 254–259: tax bill — resolve the latest-bill URL, then print with
`landscape=False`; any exception in either step is swallowed. -/
def taxEntry (env : Env) (tax_bills_url : Option String) : List (String × Bytes) :=
  match tax_bills_url with
  | none => []
  | some url =>
    match env.latestUrl url with
    | none => []
    | some bill =>
      match env.printPdf bill false with
      | none => []
      | some b => [("tax_bill.pdf", b)]

/-- Lines 232–259: the `files` dict after the three independent
acquisition attempts, in insertion order deed, prc, tax. -/
def acquireAll (env : Env) (links : PropertyLinks) : List (String × Bytes) :=
  deedEntry env links.deed_url ++ prcEntry env links.prc_url
    ++ taxEntry env links.tax_bills_url

/-- The successive states of the `files` dict during acquisition: empty,
after the deed attempt, after the property-record-card attempt, after the
tax-bill attempt. -/
def bundleStates (env : Env) (links : PropertyLinks) : List (List (String × Bytes)) :=
  [ [],
    deedEntry env links.deed_url,
    deedEntry env links.deed_url ++ prcEntry env links.prc_url,
    acquireAll env links ]

/-!
## Pipeline control flow, session teardown, HTTP endpoint
-/

/-- `fastapi.HTTPException(status_code, detail)`. -/
structure HTTPExceptionM where
  status_code : Nat
  detail : String
  deriving DecidableEq

/-- An exception escaping `fetch_docs_as_zip`: either an uncaught
browser-stage error (Playwright timeout / click failure, line 224–230) or
the `HTTPException` raised at line 265. -/
inductive PyError where
  | stageError : String → PyError
  | http : HTTPExceptionM → PyError
  deriving DecidableEq

/-- Line 265: `HTTPException(status_code=404, detail=...)` — the
`NoDocumentsFound` outcome of the spec's taxonomy. -/
def noDocumentsFound : PyError :=
  .http ⟨404, "No documents could be retrieved for that address."⟩

/-- The in-memory ZIP handed back by packaging (lines 268–272): one entry
per bundle entry. -/
structure ZipArchive where
  entries : List (String × Bytes)
  deriving DecidableEq

/-- Packaging collaborator (lines 268–272). -/
def makeZip (files : List (String × Bytes)) : ZipArchive :=
  ⟨files⟩

/-- Oracle for the required navigation stages of the pipeline (lines
224–230), each of which may raise: opening the portal, waiting for the
quick-search input, searching, opening the first result, and reading the
details view (`some e` / `.error e` = the stage raised `e`). -/
structure NavOutcomes where
  gotoPortal : Option String
  waitReady : Option String
  search : Option String
  openFirst : Option String
  details : Except String DetailsView

/-- End-of-request bookkeeping for the browser session.
`playwrightStopped` is set by `async with async_playwright()` exiting —
on the normal path and on the exceptional path alike — and stopping
Playwright terminates the driver together with every browser, context and
page launched through it.  The two explicit `close()` calls at lines
261–262 are reached only on the normal path. -/
structure SessionState where
  playwrightStopped : Bool
  contextClosedExplicitly : Bool
  browserClosedExplicitly : Bool
  deriving DecidableEq

/-- The browser session (browser + context + page) is gone once Playwright
itself is stopped. -/
def sessionTornDown (s : SessionState) : Bool :=
  s.playwrightStopped

/-- The body of the `async with` block (lines 218–262): required stages in
sequence, then the three acquisition attempts (total — their failures are
swallowed, lines 236–259). -/
def runBody (address : String) (o : NavOutcomes) (env : Env) :
    Except String (List (String × Bytes)) :=
  match o.gotoPortal with
  | some e => .error e
  | none =>
    match o.waitReady with
    | some e => .error e
    | none =>
      match o.search with
      | some e => .error e
      | none =>
        match o.openFirst with
        | some e => .error e
        | none =>
          match o.details with
          | .error e => .error e
          | .ok v => .ok (acquireAll env (extractLinks v address))

/-- Lines 217–262: run the body under `async with async_playwright()`.
Whatever the body does, the context manager's exit stops Playwright; the
explicit `context.close()` / `browser.close()` run only when no stage
raised. -/
def runSession (address : String) (o : NavOutcomes) (env : Env) :
    Except String (List (String × Bytes)) × SessionState :=
  match runBody address o env with
  | .ok files => (.ok files, ⟨true, true, true⟩)
  | .error e => (.error e, ⟨true, false, false⟩)

/-- `fetch_docs_as_zip` (lines 213–272): run the session; afterwards fail
with the 404 `HTTPException` when the bundle is empty, otherwise hand the
bundle to packaging and return the archive. -/
def fetchDocsAsZip (address : String) (o : NavOutcomes) (env : Env) :
    Except PyError ZipArchive :=
  match (runSession address o env).1 with
  | .error e => .error (.stageError e)
  | .ok files =>
    if files.isEmpty then .error noDocumentsFound
    else .ok (makeZip files)

/-- The input-validation head of the `/download` endpoint (lines
297–303): strip the submitted address; fewer than 5 characters left is a
400 before anything else happens; otherwise the stripped address is what
`fetch_docs_as_zip` receives (`.ok a` = the pipeline is invoked with
`a`). -/
def downloadEndpointGate (rawAddress : String) : Except HTTPExceptionM String :=
  let address := pyStrip rawAddress
  if address.length < 5 then .error ⟨400, "Please provide a valid address."⟩
  else .ok address

/-!
## Supporting lemmas
-/

theorem containsPinLabel_tail (c : Char) (l : List Char)
    (h : containsPinLabel (c :: l) = false) : containsPinLabel l = false := by
  match l with
  | [] => rfl
  | [b] => rfl
  | b :: d :: k =>
    simp only [containsPinLabel, Bool.or_eq_false_iff] at h
    exact h.2

theorem pinAt_eq_none (prev : Option Char) (cs : List Char)
    (h : containsPinLabel cs = false) : pinAt prev cs = none := by
  match cs with
  | [] => rfl
  | [p] => rfl
  | [p, i] => rfl
  | p :: i :: n :: rest =>
    simp only [containsPinLabel, Bool.or_eq_false_iff] at h
    simp only [pinAt]
    split
    · next hcond =>
      exfalso
      simp only [Bool.and_eq_true] at hcond
      simp [hcond.1.1.1.2, hcond.1.1.2, hcond.1.2] at h
    · rfl

theorem pinSearch_eq_none (cs : List Char) (h : containsPinLabel cs = false) :
    ∀ prev, pinSearch prev cs = none := by
  induction cs with
  | nil => intro prev; rfl
  | cons c rest ih =>
    intro prev
    have h' := containsPinLabel_tail c rest h
    have ha := pinAt_eq_none prev (c :: rest) h
    simp only [pinSearch, ha]
    exact ih h' (some c)

theorem pyTruthy_of_prefix (s p : String) (hne : p.toList ≠ [])
    (hp : strStartsWith s p = true) : pyTruthy s = true := by
  unfold strStartsWith at hp
  unfold pyTruthy
  cases hpl : p.toList with
  | nil => exact absurd hpl hne
  | cons x xs =>
    cases hsl : s.toList with
    | nil => rw [hpl, hsl] at hp; simp [List.isPrefixOf] at hp
    | cons c cs => rfl

/-!
## Claims
-/

/-- **C3.** Latest-tax-bill selection: the scan keeps the maximum year
seen; any row whose year is not below the current maximum and which
yields a truthy link href overwrites the best year/link pair (so ties
prefer the later row in document order); on rows with years
`[2021, 2023, 2022, 2023]` where only rows 1, 3 and 4 carry links, the
resolver selects row 4's link. -/
theorem C3_latest_tax_bill_selection :
    (∀ (best : Int) (bh : Option String) (row : TaxRow) (t : String) (y : Nat) (h : String),
        row.text = some t → findYear (pyStrip t) = some y → ¬((y : Int) < best) →
        row.href = some h → pyTruthy h = true →
        taxStep (best, bh) row = ((y : Int), some h)) ∧
    latestTaxBillUrl
        [ ⟨some "2021", some "http://t/r1"⟩,
          ⟨some "2023", none⟩,
          ⟨some "2022", some "http://t/r3"⟩,
          ⟨some "2023", some "http://t/r4"⟩ ]
        "https://portal.example/tax"
      = "http://t/r4" := by
  constructor
  · intro best bh row t y h ht hy hlt hh htr
    simp [taxStep, ht, hy, hlt, hh, htr]
  · decide

theorem C3_latest_tax_bill_selection_witness :
    taxStep ((2022 : Int), none) ⟨some "2023", some "x"⟩ = ((2023 : Int), some "x") :=
  C3_latest_tax_bill_selection.1 2022 none ⟨some "2023", some "x"⟩ "2023" 2023 "x"
    rfl (by decide) (by decide) rfl (by decide)

/-- **C4, counterexample.** The claim asserts that a details text
containing `PIN 1234.56-78-9` yields `pin = "1234.56-78-9"`.  It does
not: the capture class `[\d\.]+` of the PIN pattern (line 99) cannot
cross a hyphen, so extraction stops at `"1234.56"`. -/
theorem C4_pin_counterexample :
    (extractLinks ⟨"PIN 1234.56-78-9", none, none, []⟩ "addr").pin = some "1234.56" ∧
    (extractLinks ⟨"PIN 1234.56-78-9", none, none, []⟩ "addr").pin ≠ some "1234.56-78-9" := by
  refine ⟨rfl, ?_⟩
  rw [show (extractLinks ⟨"PIN 1234.56-78-9", none, none, []⟩ "addr").pin
      = some "1234.56" from rfl]
  decide

/-- **C4 (amended).** PIN extraction: a details text containing
`PIN 1234.56-78-9` yields `pin = "1234.56"` (the match stops at the
first hyphen, the capture class being digits and dots only); any body
text with no `PIN` label — no consecutive letters P, I, N in any case —
leaves `pin` absent. -/
theorem C4_pin_extraction :
    (extractLinks ⟨"PIN 1234.56-78-9", none, none, []⟩ "addr").pin = some "1234.56" ∧
    (∀ (v : DetailsView) (address : String),
      containsPinLabel v.bodyText.toList = false →
      (extractLinks v address).pin = none) := by
  refine ⟨rfl, ?_⟩
  intro v address h
  show pinSearch none v.bodyText.toList = none
  exact pinSearch_eq_none _ h none

theorem C4_pin_extraction_witness :
    (extractLinks ⟨"No label here", none, none, []⟩ "addr").pin = none :=
  C4_pin_extraction.2 ⟨"No label here", none, none, []⟩ "addr" (by decide)

/-- **C5.** Deed-citation matching: an anchor is matched by the
structural full-pattern `\s*\d+\s*/\s*\d+\s*`; an anchor with text
`"2972 / 328"` is captured — `deed_book_page = "2972 / 328"` and its href
becomes `deed_url` — while `"2972/328/99"` (an extra segment) is not
matched, leaving both deed fields absent. -/
theorem C5_deed_citation_matching :
    deedCitation "2972 / 328".toList = true ∧
    (extractLinks ⟨"", none, none, [⟨"2972 / 328", some "deed-href"⟩]⟩ "addr").deed_book_page
        = some "2972 / 328" ∧
    (extractLinks ⟨"", none, none, [⟨"2972 / 328", some "deed-href"⟩]⟩ "addr").deed_url
        = some "deed-href" ∧
    deedCitation "2972/328/99".toList = false ∧
    (extractLinks ⟨"", none, none, [⟨"2972/328/99", some "other"⟩]⟩ "addr").deed_book_page
        = none ∧
    (extractLinks ⟨"", none, none, [⟨"2972/328/99", some "other"⟩]⟩ "addr").deed_url
        = none := by
  refine ⟨by decide, rfl, rfl, by decide, rfl, rfl⟩

/-- **C6, counterexample.** The claim asserts every relative winning href
is resolved against the page origin.  A relative href that does not start
with `"/"` — here `"bills/123.pdf"` on page
`https://portal.example/tax` — is not: the resolver falls through and
returns the page URL itself. -/
theorem C6_relative_href_counterexample :
    strStartsWith "bills/123.pdf" "http" = false ∧
    strStartsWith "bills/123.pdf" "/" = false ∧
    resolveTaxUrl "https://portal.example/tax" (some "bills/123.pdf")
        = "https://portal.example/tax" ∧
    resolveTaxUrl "https://portal.example/tax" (some "bills/123.pdf")
        ≠ "https://portal.example/bills/123.pdf" := by
  refine ⟨by decide, by decide, rfl, by decide⟩

/-- **C6 (amended).** Winning-href resolution: a winning href starting
with `"http"` is returned as-is; one starting with `"/"` is resolved
against the page's http(s) origin when one parses; every other (truthy)
href falls back to the current page URL.  In particular `/bills/123.pdf`
on page `https://portal.example/tax` resolves to
`https://portal.example/bills/123.pdf`. -/
theorem C6_relative_href_resolution :
    (∀ (pageUrl h : String), strStartsWith h "http" = true →
        resolveTaxUrl pageUrl (some h) = h) ∧
    (∀ (pageUrl h origin : String), strStartsWith h "http" = false →
        strStartsWith h "/" = true → httpOrigin pageUrl = some origin →
        resolveTaxUrl pageUrl (some h) = origin ++ h) ∧
    (∀ (pageUrl h : String), pyTruthy h = true → strStartsWith h "http" = false →
        strStartsWith h "/" = false → resolveTaxUrl pageUrl (some h) = pageUrl) ∧
    resolveTaxUrl "https://portal.example/tax" (some "/bills/123.pdf")
        = "https://portal.example/bills/123.pdf" := by
  refine ⟨?_, ?_, ?_, by decide⟩
  · intro pageUrl h hp
    have ht := pyTruthy_of_prefix h "http" (by decide) hp
    simp [resolveTaxUrl, ht, hp]
  · intro pageUrl h origin hh hs horig
    have ht := pyTruthy_of_prefix h "/" (by decide) hs
    simp [resolveTaxUrl, ht, hh, hs, horig]
  · intro pageUrl h ht hh hs
    simp [resolveTaxUrl, ht, hh, hs]

theorem C6_relative_href_resolution_witness :
    resolveTaxUrl "https://portal.example/tax" (some "/bills/123.pdf")
      = "https://portal.example" ++ "/bills/123.pdf" :=
  C6_relative_href_resolution.2.1 "https://portal.example/tax" "/bills/123.pdf"
    "https://portal.example" (by decide) (by decide) (by decide)

theorem deedEntry_eq_nil (env : Env) (du : Option String)
    (h : du = none ∨ ∃ u, du = some u ∧ env.download u = none ∧ env.printPdf u false = none) :
    deedEntry env du = [] := by
  rcases h with h | ⟨u, hu, hd, hp⟩
  · rw [h]; rfl
  · rw [hu]; simp [deedEntry, acquireDeed, hd, hp]

theorem prcEntry_eq_nil (env : Env) (pu : Option String)
    (h : pu = none ∨ ∃ u, pu = some u ∧ env.printPdf u true = none) :
    prcEntry env pu = [] := by
  rcases h with h | ⟨u, hu, hp⟩
  · rw [h]; rfl
  · rw [hu]; simp [prcEntry, hp]

theorem prcEntry_eq_cons (env : Env) (u : String) (b : Bytes)
    (h : env.printPdf u true = some b) :
    prcEntry env (some u) = [("property_record_card.pdf", b)] := by
  simp [prcEntry, h]

theorem taxEntry_eq_nil (env : Env) (tu : Option String)
    (h : tu = none ∨ ∃ u, tu = some u ∧
        (env.latestUrl u = none ∨
          ∃ bill, env.latestUrl u = some bill ∧ env.printPdf bill false = none)) :
    taxEntry env tu = [] := by
  rcases h with h | ⟨u, hu, h2⟩
  · rw [h]; rfl
  · rw [hu]
    rcases h2 with h2 | ⟨bill, hb, hp⟩
    · simp [taxEntry, h2]
    · simp [taxEntry, hb, hp]

theorem deedEntry_shape (env : Env) (du : Option String) :
    deedEntry env du = [] ∨ ∃ b, deedEntry env du = [("deed.pdf", b)] := by
  cases du with
  | none => exact Or.inl rfl
  | some u =>
    rcases h : acquireDeed env u with _ | b
    · exact Or.inl (by simp [deedEntry, h])
    · cases b with
      | nil => exact Or.inl (by simp [deedEntry, h])
      | cons x xs => exact Or.inr ⟨x :: xs, by simp [deedEntry, h]⟩

theorem prcEntry_shape (env : Env) (pu : Option String) :
    prcEntry env pu = [] ∨ ∃ b, prcEntry env pu = [("property_record_card.pdf", b)] := by
  cases pu with
  | none => exact Or.inl rfl
  | some u =>
    rcases h : env.printPdf u true with _ | b
    · exact Or.inl (by simp [prcEntry, h])
    · exact Or.inr ⟨b, by simp [prcEntry, h]⟩

theorem taxEntry_shape (env : Env) (tu : Option String) :
    taxEntry env tu = [] ∨ ∃ b, taxEntry env tu = [("tax_bill.pdf", b)] := by
  cases tu with
  | none => exact Or.inl rfl
  | some u =>
    rcases h : env.latestUrl u with _ | bill
    · exact Or.inl (by simp [taxEntry, h])
    · rcases h2 : env.printPdf bill false with _ | b
      · exact Or.inl (by simp [taxEntry, h, h2])
      · exact Or.inr ⟨b, by simp [taxEntry, h, h2]⟩

/-- **C7.** Deed acquisition strategy: with a deed URL present, the
triggered-download strategy is attempted first and its bytes are used
whenever it returns any (regardless of the print oracle); exactly when it
returns `none` ("no bytes", its timeout/failure signal) does the acquirer
fall back to printing the deed page with `landscape = false` (portrait);
and the deed entry lands in the bundle exactly when the strategy that ran
produced a nonempty byte payload. -/
theorem C7_deed_acquisition_strategy :
    (∀ (env : Env) (url : String) (b : Bytes),
        env.download url = some b → acquireDeed env url = some b) ∧
    (∀ (env : Env) (url : String),
        env.download url = none → acquireDeed env url = env.printPdf url false) ∧
    (∀ (env : Env) (url : String) (b : Bytes),
        deedEntry env (some url) = [("deed.pdf", b)] ↔
          (b ≠ [] ∧ (env.download url = some b ∨
            (env.download url = none ∧ env.printPdf url false = some b)))) := by
  refine ⟨?_, ?_, ?_⟩
  · intro env url b h
    simp [acquireDeed, h]
  · intro env url h
    simp [acquireDeed, h]
  · intro env url b
    simp only [deedEntry, acquireDeed]
    rcases hd : env.download url with _ | db
    · rcases hp : env.printPdf url false with _ | pb
      · simp
      · cases pb with
        | nil => simp
        | cons x xs =>
          simp only [List.isEmpty_cons, Bool.false_eq_true, if_false, List.cons.injEq,
            Prod.mk.injEq, true_and, and_true, reduceCtorEq, false_or, Option.some.injEq,
            false_and, ne_eq]
          constructor
          · rintro rfl
            simp
          · rintro ⟨-, h⟩
            exact h
    · cases db with
      | nil => simp
      | cons x xs =>
        simp only [List.isEmpty_cons, Bool.false_eq_true, if_false, List.cons.injEq,
          Prod.mk.injEq, true_and, and_true, reduceCtorEq, or_false, Option.some.injEq,
          false_and, ne_eq]
        constructor
        · rintro rfl
          simp
        · rintro ⟨-, h⟩
          exact h

theorem C7_deed_acquisition_strategy_witness :
    acquireDeed ⟨fun _ => some [7], fun _ _ => none, fun _ => none⟩ "u" = some [7] :=
  C7_deed_acquisition_strategy.1 ⟨fun _ => some [7], fun _ _ => none, fun _ => none⟩
    "u" [7] rfl

/-- **C1.** Degrade-not-abort: when navigation succeeded, the deed and
tax-bill acquisitions both fail (missing link, or every strategy /
resolution step yielding nothing — the model of timeouts and swallowed
exceptions), and the property-record-card print succeeds, the pipeline
returns a one-entry bundle holding only `property_record_card.pdf`.
Moreover no per-document acquisition failure is ever propagated: after a
successful navigation the pipeline's only possible failure is the
empty-bundle `NoDocumentsFound`. -/
theorem C1_degrade_not_abort :
    (∀ (address : String) (o : NavOutcomes) (env : Env) (v : DetailsView)
        (u : String) (b : Bytes),
      o.gotoPortal = none → o.waitReady = none → o.search = none →
      o.openFirst = none → o.details = .ok v →
      ((extractLinks v address).deed_url = none ∨
        ∃ du, (extractLinks v address).deed_url = some du ∧
          env.download du = none ∧ env.printPdf du false = none) →
      ((extractLinks v address).tax_bills_url = none ∨
        ∃ tu, (extractLinks v address).tax_bills_url = some tu ∧
          (env.latestUrl tu = none ∨
            ∃ bill, env.latestUrl tu = some bill ∧ env.printPdf bill false = none)) →
      (extractLinks v address).prc_url = some u →
      env.printPdf u true = some b →
      fetchDocsAsZip address o env
        = .ok (makeZip [("property_record_card.pdf", b)])) ∧
    (∀ (address : String) (o : NavOutcomes) (env : Env) (v : DetailsView),
      o.gotoPortal = none → o.waitReady = none → o.search = none →
      o.openFirst = none → o.details = .ok v →
      fetchDocsAsZip address o env = .error noDocumentsFound ∨
        ∃ z, fetchDocsAsZip address o env = .ok z) := by
  constructor
  · intro address o env v u b h1 h2 h3 h4 h5 hdeed htax hprc hpb
    have hd := deedEntry_eq_nil env _ hdeed
    have ht := taxEntry_eq_nil env _ htax
    have hp := prcEntry_eq_cons env u b hpb
    simp [fetchDocsAsZip, runSession, runBody, h1, h2, h3, h4, h5, acquireAll,
      hd, ht, hprc, hp, makeZip]
  · intro address o env v h1 h2 h3 h4 h5
    cases he : (acquireAll env (extractLinks v address)).isEmpty
    · right
      exact ⟨makeZip (acquireAll env (extractLinks v address)),
        by simp [fetchDocsAsZip, runSession, runBody, h1, h2, h3, h4, h5, he]⟩
    · left
      simp [fetchDocsAsZip, runSession, runBody, h1, h2, h3, h4, h5, he]

theorem C1_degrade_not_abort_witness :
    fetchDocsAsZip "addr" ⟨none, none, none, none, .ok ⟨"", some "prc", none, []⟩⟩
        ⟨fun _ => none, fun _ _ => some [9], fun _ => none⟩
      = .ok (makeZip [("property_record_card.pdf", [9])]) :=
  C1_degrade_not_abort.1 "addr" ⟨none, none, none, none, .ok ⟨"", some "prc", none, []⟩⟩
    ⟨fun _ => none, fun _ _ => some [9], fun _ => none⟩ ⟨"", some "prc", none, []⟩
    "prc" [9] rfl rfl rfl rfl rfl (Or.inl rfl) (Or.inl rfl) rfl rfl

/-- **C2.** Total failure: when navigation succeeded but all three
acquisitions fail, the pipeline fails with the `NoDocumentsFound`
`HTTPException` (status 404) and packaging is never reached; conversely
every archive the pipeline returns packages a nonempty bundle, and a
nonempty bundle is always packaged and returned. -/
theorem C2_total_failure :
    (∀ (address : String) (o : NavOutcomes) (env : Env) (v : DetailsView),
      o.gotoPortal = none → o.waitReady = none → o.search = none →
      o.openFirst = none → o.details = .ok v →
      ((extractLinks v address).deed_url = none ∨
        ∃ du, (extractLinks v address).deed_url = some du ∧
          env.download du = none ∧ env.printPdf du false = none) →
      ((extractLinks v address).prc_url = none ∨
        ∃ u, (extractLinks v address).prc_url = some u ∧ env.printPdf u true = none) →
      ((extractLinks v address).tax_bills_url = none ∨
        ∃ tu, (extractLinks v address).tax_bills_url = some tu ∧
          (env.latestUrl tu = none ∨
            ∃ bill, env.latestUrl tu = some bill ∧ env.printPdf bill false = none)) →
      fetchDocsAsZip address o env = .error noDocumentsFound) ∧
    (∀ (address : String) (o : NavOutcomes) (env : Env) (z : ZipArchive),
      fetchDocsAsZip address o env = .ok z → z.entries ≠ []) ∧
    (∀ (address : String) (o : NavOutcomes) (env : Env) (v : DetailsView),
      o.gotoPortal = none → o.waitReady = none → o.search = none →
      o.openFirst = none → o.details = .ok v →
      acquireAll env (extractLinks v address) ≠ [] →
      fetchDocsAsZip address o env
        = .ok (makeZip (acquireAll env (extractLinks v address)))) := by
  refine ⟨?_, ?_, ?_⟩
  · intro address o env v h1 h2 h3 h4 h5 hdeed hprc htax
    have hd := deedEntry_eq_nil env _ hdeed
    have hp := prcEntry_eq_nil env _ hprc
    have ht := taxEntry_eq_nil env _ htax
    simp [fetchDocsAsZip, runSession, runBody, h1, h2, h3, h4, h5, acquireAll,
      hd, hp, ht]
  · intro address o env z hz
    unfold fetchDocsAsZip at hz
    rcases hr : (runSession address o env).1 with e | files
    · rw [hr] at hz
      exact absurd hz (by simp)
    · rw [hr] at hz
      dsimp only at hz
      split at hz
      · exact absurd hz (by simp)
      · next hie =>
        simp only [Except.ok.injEq] at hz
        rw [← hz]
        show files ≠ []
        intro hnil
        exact hie (by simp [hnil])
  · intro address o env v h1 h2 h3 h4 h5 hne
    have hie : (acquireAll env (extractLinks v address)).isEmpty = false := by
      cases hie : (acquireAll env (extractLinks v address)).isEmpty
      · rfl
      · exact absurd (List.isEmpty_iff.mp hie) hne
    simp [fetchDocsAsZip, runSession, runBody, h1, h2, h3, h4, h5, hie]

theorem C2_total_failure_witness :
    fetchDocsAsZip "addr" ⟨none, none, none, none, .ok ⟨"", none, none, []⟩⟩
        ⟨fun _ => none, fun _ _ => none, fun _ => none⟩
      = .error noDocumentsFound :=
  C2_total_failure.1 "addr" ⟨none, none, none, none, .ok ⟨"", none, none, []⟩⟩
    ⟨fun _ => none, fun _ _ => none, fun _ => none⟩ ⟨"", none, none, []⟩
    rfl rfl rfl rfl rfl (Or.inl rfl) (Or.inl rfl) (Or.inl rfl)

/-- **C8.** Unconditional session teardown: whatever the stage outcomes —
including a raise in the portal load, the readiness wait, the search, the
result-opening or the details read — the `async with async_playwright()`
exit stops Playwright, which tears down the browser session (browser,
context and page) by the end of the pipeline; the explicit `close()`
calls additionally run on the non-raising path. -/
theorem C8_unconditional_teardown :
    ∀ (address : String) (o : NavOutcomes) (env : Env),
      sessionTornDown (runSession address o env).2 = true ∧
      (runSession address o env).2.playwrightStopped = true := by
  intro address o env
  unfold runSession sessionTornDown
  cases runBody address o env <;> exact ⟨rfl, rfl⟩

/-- **C9.** Bundle-key invariant: at each of the successive states of the
`files` dict during acquisition (empty, after the deed attempt, after the
property-record-card attempt, after the tax-bill attempt) the keys are a
subset of `{deed.pdf, property_record_card.pdf, tax_bill.pdf}` with no
duplicates and at most three entries; moreover each state extends the
previous one by appending, so no entry is ever overwritten or removed and
each key is written at most once per request. -/
theorem C9_bundle_key_invariant :
    ∀ (env : Env) (links : PropertyLinks),
      (∀ s ∈ bundleStates env links,
        (s.map Prod.fst).Nodup ∧
        (∀ k ∈ s.map Prod.fst,
          k ∈ (["deed.pdf", "property_record_card.pdf", "tax_bill.pdf"] : List String)) ∧
        s.length ≤ 3) ∧
      (bundleStates env links).Chain' (fun a b => ∃ t, b = a ++ t) := by
  intro env links
  constructor
  · intro s hs
    rcases deedEntry_shape env links.deed_url with hd | ⟨db, hd⟩ <;>
      rcases prcEntry_shape env links.prc_url with hp | ⟨pb, hp⟩ <;>
        rcases taxEntry_shape env links.tax_bills_url with ht | ⟨tb, ht⟩ <;>
          simp only [bundleStates, acquireAll, hd, hp, ht, List.mem_cons,
            List.not_mem_nil, or_false, List.append_nil, List.nil_append,
            List.cons_append] at hs <;>
          rcases hs with rfl | rfl | rfl | rfl <;>
          refine ⟨by simp, by simp, by simp⟩
  · refine List.chain'_cons.mpr ⟨⟨deedEntry env links.deed_url, by simp⟩,
      List.chain'_cons.mpr ⟨⟨prcEntry env links.prc_url, rfl⟩,
        List.chain'_cons.mpr ⟨⟨taxEntry env links.tax_bills_url, rfl⟩,
          List.chain'_singleton _⟩⟩⟩

theorem C9_bundle_key_invariant_witness :
    ((([] : List (String × Bytes)).map Prod.fst).Nodup ∧
      (∀ k ∈ (([] : List (String × Bytes)).map Prod.fst),
        k ∈ (["deed.pdf", "property_record_card.pdf", "tax_bill.pdf"] : List String)) ∧
      ([] : List (String × Bytes)).length ≤ 3) :=
  (C9_bundle_key_invariant ⟨fun _ => none, fun _ _ => none, fun _ => none⟩
      ⟨"addr", none, none, none, none, none⟩).1 [] (by decide)

/-- **C10.** Input floor of `/download`: the submitted address is
stripped; when the stripped form has fewer than 5 characters the
operation fails with HTTP 400 before the pipeline is invoked (the gate
returns the error instead of an address for `fetch_docs_as_zip`);
otherwise the stripped address — not the raw input — is what the
pipeline receives. -/
theorem C10_input_floor :
    ∀ rawAddress : String,
      ((pyStrip rawAddress).length < 5 →
        downloadEndpointGate rawAddress
          = .error ⟨400, "Please provide a valid address."⟩) ∧
      (¬ (pyStrip rawAddress).length < 5 →
        downloadEndpointGate rawAddress = .ok (pyStrip rawAddress)) := by
  intro a
  constructor <;> intro h <;> simp [downloadEndpointGate, h]

theorem C10_input_floor_witness :
    downloadEndpointGate "  ab  " = .error ⟨400, "Please provide a valid address."⟩ ∧
    downloadEndpointGate " 133 Manorly Ln " = .ok (pyStrip " 133 Manorly Ln ") :=
  ⟨(C10_input_floor "  ab  ").1 (by decide),
    (C10_input_floor " 133 Manorly Ln ").2 (by decide)⟩
